import Mathlib

/-!
Shallow embedding of `src/backend/main.py` (the "Sxodim Backend"): a small
event-catalog service over three relational tables (`events`, `users`,
`calendar`).  The database is modelled as three lists of rows; SQLite's
generated integer primary keys are modelled as `max existing id + 1`.
Each request handler becomes a pure function from the database state to a
result (`Except HTTPException α`, mirroring `raise HTTPException`) paired
with the resulting database state.  Every `raise` in the source happens
before any mutation, so an error leaves the state unchanged.
-/

namespace Sxodim

/-- Row of the `events` table (`EventDB` in `main.py`). -/
structure EventDB where
  id : Nat
  name : String
  date : String
  time : String
  place : String
  description : String
  image_url : String
deriving DecidableEq, Repr

/-- Row of the `users` table (`UserDB` in `main.py`). -/
structure UserDB where
  id : Nat
  login : String
  password : String
deriving DecidableEq, Repr

/-- Row of the `calendar` table (`CalendarDB` in `main.py`). -/
structure CalendarDB where
  id : Nat
  user_id : Nat
  event_id : Nat
deriving DecidableEq, Repr

/-- The whole relational store: tables `events`, `users`, `calendar`. -/
structure DBState where
  events : List EventDB
  users : List UserDB
  calendar : List CalendarDB
deriving DecidableEq, Repr

/-- Pydantic schema `Event`: `id` is `Optional[int]`. -/
structure Event where
  id : Option Nat
  name : String
  date : String
  time : String
  place : String
  description : String
  image_url : String
deriving DecidableEq, Repr

/-- Pydantic schema `User` (response model of register/login). -/
structure User where
  id : Nat
  login : String
deriving DecidableEq, Repr

/-- Pydantic schema `RegisterRequest` (and `LoginRequest`, its subclass). -/
structure RegisterRequest where
  login : String
  password : String
deriving DecidableEq, Repr

/-- Pydantic schema `CalendarItem`. -/
structure CalendarItem where
  user_id : Nat
  event_id : Nat
deriving DecidableEq, Repr

/-- Pydantic schema `UserSettings`: both fields `Optional` with defaults
`theme = "light"`, `notifications = True`. -/
structure UserSettings where
  theme : Option String := some "light"
  notifications : Option Bool := some true
deriving DecidableEq, Repr

/-- Pydantic construction of `UserSettings` from a payload: the outer
`Option` is "field supplied or not"; an unsupplied field takes the default,
a supplied field (possibly null) is kept as given. -/
def UserSettings.parse (theme : Option (Option String))
    (notifications : Option (Option Bool)) : UserSettings :=
  ⟨theme.getD (some "light"), notifications.getD (some true)⟩

/-- `HTTPException(status_code=..., detail=...)`. -/
structure HTTPException where
  status_code : Nat
  detail : String
deriving DecidableEq, Repr

/-- SQLite's generated rowid for an insert: one more than the largest
existing id (1 on an empty table). -/
def nextId (ids : List Nat) : Nat :=
  ids.foldr max 0 + 1

/-- Serialization of an `events` row through `response_model=Event`. -/
def eventToSchema (e : EventDB) : Event :=
  ⟨some e.id, e.name, e.date, e.time, e.place, e.description, e.image_url⟩

/-- Serialization of a `users` row through `response_model=User`. -/
def userToSchema (u : UserDB) : User :=
  ⟨u.id, u.login⟩

/-- SQLAlchemy's in-place mutation of the one row returned by `.first()`:
apply `f` to the first element satisfying `p`, keep the rest. -/
def modifyFirst {α : Type} (p : α → Bool) (f : α → α) : List α → List α
  | [] => []
  | x :: xs => if p x then f x :: xs else x :: modifyFirst p f xs

/-- `POST /api/register` (`register` in `main.py`): 400 "User already
exists" when a stored user has the submitted login, otherwise insert a new
user and return it. -/
def register (data : RegisterRequest) (db : DBState) :
    Except HTTPException User × DBState :=
  match db.users.find? (fun u => u.login == data.login) with
  | some _ => (.error ⟨400, "User already exists"⟩, db)
  | none =>
    let user : UserDB := ⟨nextId (db.users.map (·.id)), data.login, data.password⟩
    (.ok (userToSchema user), { db with users := db.users ++ [user] })

/-- `POST /api/login` (`login` in `main.py`): first stored user matching
both login and password, 401 "Invalid login or password" when none. -/
def login (data : RegisterRequest) (db : DBState) :
    Except HTTPException User × DBState :=
  match db.users.find? (fun u => u.login == data.login && u.password == data.password) with
  | some user => (.ok (userToSchema user), db)
  | none => (.error ⟨401, "Invalid login or password"⟩, db)

/-- `GET /api/events` (`get_events` in `main.py`): all rows of `events`. -/
def get_events (db : DBState) :
    Except HTTPException (List Event) × DBState :=
  (.ok (db.events.map eventToSchema), db)

/-- `POST /api/events` (`create_event` in `main.py`): insert a row built
from the payload with the `id` field excluded, return it refreshed. -/
def create_event (event : Event) (db : DBState) :
    Except HTTPException Event × DBState :=
  let new_event : EventDB :=
    ⟨nextId (db.events.map (·.id)), event.name, event.date, event.time,
      event.place, event.description, event.image_url⟩
  (.ok (eventToSchema new_event), { db with events := db.events ++ [new_event] })

/-- `PUT /api/events/{event_id}` (`update_event` in `main.py`): 404 "Event
not found" when no row has that id, otherwise overwrite every field except
`id` of the found row with the payload and return the row. -/
def update_event (event_id : Nat) (event : Event) (db : DBState) :
    Except HTTPException Event × DBState :=
  match db.events.find? (fun e => e.id == event_id) with
  | none => (.error ⟨404, "Event not found"⟩, db)
  | some db_event =>
    let upd : EventDB → EventDB := fun e =>
      { e with name := event.name, date := event.date, time := event.time,
               place := event.place, description := event.description,
               image_url := event.image_url }
    (.ok (eventToSchema (upd db_event)),
      { db with events := modifyFirst (fun e => e.id == event_id) upd db.events })

/-- `DELETE /api/events/{event_id}` (`delete_event` in `main.py`): 404
"Event not found" when no row has that id, otherwise delete the found row
and return `{"message": "Event deleted"}`. -/
def delete_event (event_id : Nat) (db : DBState) :
    Except HTTPException String × DBState :=
  match db.events.find? (fun e => e.id == event_id) with
  | none => (.error ⟨404, "Event not found"⟩, db)
  | some _ =>
    (.ok "Event deleted",
      { db with events := db.events.eraseP (fun e => e.id == event_id) })

/-- `POST /api/calendar` (`add_to_calendar` in `main.py`): look up the user
and the event; 404 "User or Event not found" when either is missing,
otherwise insert one `calendar` row and return the confirmation. -/
def add_to_calendar (data : CalendarItem) (db : DBState) :
    Except HTTPException String × DBState :=
  let user := db.users.find? (fun u => u.id == data.user_id)
  let event := db.events.find? (fun e => e.id == data.event_id)
  if user.isNone || event.isNone then
    (.error ⟨404, "User or Event not found"⟩, db)
  else
    let item : CalendarDB :=
      ⟨nextId (db.calendar.map (·.id)), data.user_id, data.event_id⟩
    (.ok "Added to calendar", { db with calendar := db.calendar ++ [item] })

/-- `GET /api/calendar/{user_id}` (`get_calendar` in `main.py`): for each
`calendar` row of that user, the `.first()` lookup of the referenced event
(`None`, i.e. `none`, when the event row is missing). -/
def get_calendar (user_id : Nat) (db : DBState) :
    Except HTTPException (List (Option Event)) × DBState :=
  let items := db.calendar.filter (fun c => c.user_id == user_id)
  let events := items.map
    (fun item => (db.events.find? (fun e => e.id == item.event_id)).map eventToSchema)
  (.ok events, db)

/-- `GET /api/users/{user_id}/settings` (`get_settings` in `main.py`): a
fresh default `UserSettings()`, no database access. -/
def get_settings (_user_id : Nat) : UserSettings :=
  {}

/-- `PUT /api/users/{user_id}/settings` (`update_settings` in `main.py`):
echo the submitted settings, no database access. -/
def update_settings (_user_id : Nat) (settings : UserSettings) : UserSettings :=
  settings

/-- No two stored users share a login (spec §3 invariant). -/
def uniqueLogins (db : DBState) : Prop :=
  db.users.Pairwise (fun a b => a.login ≠ b.login)

/-! Concrete fixtures used to instantiate the theorems. -/

/-- A concrete `events` row. -/
def evRow1 : EventDB :=
  ⟨1, "Concert", "2025-01-01", "19:00", "Hall", "live show", "img.png"⟩

/-- A concrete `users` row. -/
def userRow1 : UserDB := ⟨1, "alice", "pw"⟩

/-- A state with one event and no users. -/
def dbOneEvent : DBState := ⟨[evRow1], [], []⟩

/-- A state with one event and one user. -/
def dbUserEvent : DBState := ⟨[evRow1], [userRow1], []⟩

/-- A state with one user, one event, and one calendar entry linking them. -/
def dbUserEventCal : DBState := ⟨[evRow1], [userRow1], [⟨1, 1, 1⟩]⟩

/-- A state whose single calendar entry references a missing event
(an orphaned row, reachable by deleting the event afterwards). -/
def dbOrphan : DBState := ⟨[], [userRow1], [⟨1, 1, 5⟩]⟩

/-- A concrete `Event` payload. -/
def evPayload : Event :=
  ⟨none, "Party", "2025-02-02", "20:00", "Club", "dance", "img2.png"⟩

/-! Helper lemmas about lists. -/

theorem le_foldr_max_of_mem {l : List Nat} {n : Nat} (h : n ∈ l) :
    n ≤ l.foldr max 0 := by
  induction l with
  | nil => cases h
  | cons x xs ih =>
    rcases List.mem_cons.mp h with rfl | hx
    · exact le_max_left _ _
    · exact le_trans (ih hx) (le_max_right _ _)

theorem lt_nextId_of_mem {l : List Nat} {n : Nat} (h : n ∈ l) : n < nextId l :=
  Nat.lt_succ_of_le (le_foldr_max_of_mem h)

theorem nextId_ne_zero (l : List Nat) : nextId l ≠ 0 :=
  Nat.succ_ne_zero _

theorem modifyFirst_mem_of_find? {α : Type} {p : α → Bool} {f : α → α}
    {l : List α} {a : α} (h : l.find? p = some a) :
    f a ∈ modifyFirst p f l := by
  induction l with
  | nil => simp [List.find?] at h
  | cons x xs ih =>
    by_cases hp : p x
    · rw [List.find?_cons_of_pos _ hp] at h
      cases h
      simp [modifyFirst, hp]
    · rw [List.find?_cons_of_neg _ hp] at h
      simp only [modifyFirst, hp, if_neg, Bool.false_eq_true, not_false_iff,
        ite_false, List.mem_cons]
      exact Or.inr (ih h)

theorem eraseP_no_match {α : Type} {p : α → Bool} {l : List α}
    (hpw : l.Pairwise (fun a b => p a = true → p b = true → False)) :
    ∀ e ∈ l.eraseP p, ¬ p e = true := by
  induction l with
  | nil => simp
  | cons x xs ih =>
    rcases List.pairwise_cons.mp hpw with ⟨hx, hxs⟩
    by_cases hp : p x
    · rw [List.eraseP_cons_of_pos hp]
      intro e he hpe
      exact hx e he hp hpe
    · rw [List.eraseP_cons_of_neg hp]
      intro e he
      rcases List.mem_cons.mp he with rfl | he'
      · exact hp
      · exact ih hxs e he'

theorem mem_eraseP_of_not_match {α : Type} {p : α → Bool} {l : List α} {e : α}
    (he : e ∈ l) (hp : ¬ p e = true) : e ∈ l.eraseP p := by
  induction l with
  | nil => cases he
  | cons x xs ih =>
    rcases List.mem_cons.mp he with rfl | he'
    · rw [List.eraseP_cons_of_neg hp]
      exact List.mem_cons_self _ _
    · by_cases hx : p x
      · rw [List.eraseP_cons_of_pos hx]; exact he'
      · rw [List.eraseP_cons_of_neg hx]
        exact List.mem_cons.mpr (Or.inr (ih he'))

/-! Helper lemmas about the handlers, shared between claims. -/

theorem add_to_calendar_success {uid eid : Nat} (db : DBState)
    (hu : ∃ u ∈ db.users, u.id = uid) (he : ∃ e ∈ db.events, e.id = eid) :
    add_to_calendar ⟨uid, eid⟩ db =
      (.ok "Added to calendar",
        { db with calendar := db.calendar ++
            [⟨nextId (db.calendar.map (fun x => x.id)), uid, eid⟩] }) := by
  obtain ⟨u, hum, hui⟩ := hu
  obtain ⟨e, hem, hei⟩ := he
  have hu' : (db.users.find? (fun x => x.id == uid)).isSome := by
    rw [List.find?_isSome]
    exact ⟨u, hum, by simp [hui]⟩
  have he' : (db.events.find? (fun x => x.id == eid)).isSome := by
    rw [List.find?_isSome]
    exact ⟨e, hem, by simp [hei]⟩
  obtain ⟨uu, huu⟩ := Option.isSome_iff_exists.mp hu'
  obtain ⟨ee, hee⟩ := Option.isSome_iff_exists.mp he'
  unfold add_to_calendar
  rw [huu, hee]
  simp

theorem add_to_calendar_users (ci : CalendarItem) (db : DBState) :
    (add_to_calendar ci db).2.users = db.users := by
  unfold add_to_calendar
  by_cases hc : (db.users.find? (fun u => u.id == ci.user_id)).isNone ||
      (db.events.find? (fun e => e.id == ci.event_id)).isNone
  · simp [hc]
  · simp [hc]

theorem update_event_users (eid : Nat) (ev : Event) (db : DBState) :
    (update_event eid ev db).2.users = db.users := by
  unfold update_event
  cases db.events.find? (fun e => e.id == eid) <;> rfl

theorem delete_event_users (eid : Nat) (db : DBState) :
    (delete_event eid db).2.users = db.users := by
  unfold delete_event
  cases db.events.find? (fun e => e.id == eid) <;> rfl

theorem login_state_eq (data : RegisterRequest) (db : DBState) :
    (login data db).2 = db := by
  unfold login
  cases db.users.find?
      (fun u => u.login == data.login && u.password == data.password) <;> rfl

theorem uniqueLogins_of_users_eq {db db' : DBState} (h : db'.users = db.users)
    (hU : uniqueLogins db) : uniqueLogins db' := by
  unfold uniqueLogins at *
  rw [h]
  exact hU

/-- C6: get-settings always returns the default `{theme: "light",
notifications: true}` regardless of user_id; update-settings echoes the
submitted settings, filling unsupplied fields with those defaults (e.g.
submitting only `theme = "dark"` yields `{theme: "dark", notifications:
true}`); nothing is persisted, so any later get-settings still returns the
defaults. -/
theorem C6_settings (uid uid2 : Nat) (s : UserSettings)
    (th : Option (Option String)) (nt : Option (Option Bool)) :
    get_settings uid = ⟨some "light", some true⟩ ∧
    update_settings uid (UserSettings.parse th nt) =
      ⟨th.getD (some "light"), nt.getD (some true)⟩ ∧
    update_settings uid (UserSettings.parse (some (some "dark")) none) =
      ⟨some "dark", some true⟩ ∧
    update_settings uid s = s ∧
    get_settings uid2 = ⟨some "light", some true⟩ :=
  ⟨rfl, rfl, rfl, rfl, rfl⟩

/-- C10: delete-event touches only the `events` table: the `users` and
`calendar` tables of the resulting state are exactly those of the input
state, whether the deletion succeeds or fails, so calendar rows referencing
the deleted event remain stored as orphans. -/
theorem C10_delete_event_frame (event_id : Nat) (db : DBState) :
    (delete_event event_id db).2.users = db.users ∧
    (delete_event event_id db).2.calendar = db.calendar := by
  unfold delete_event
  cases db.events.find? (fun e => e.id == event_id) <;> exact ⟨rfl, rfl⟩

/-- C8: when an event with the given id exists (ids being unique, as the
primary key guarantees), delete-event returns the confirmation "Event
deleted" and removes exactly that event, keeping every other event and the
other tables; when no such event exists it returns 404 "Event not found"
and changes nothing; hence deleting twice succeeds then yields NotFound. -/
theorem C8_delete_event (eid : Nat) (db : DBState)
    (hpw : db.events.Pairwise (fun a b => a.id ≠ b.id)) :
    ((∀ e ∈ db.events, e.id ≠ eid) →
        delete_event eid db = (.error ⟨404, "Event not found"⟩, db)) ∧
    ((∃ e ∈ db.events, e.id = eid) →
      ∃ db', delete_event eid db = (.ok "Event deleted", db') ∧
        db'.users = db.users ∧ db'.calendar = db.calendar ∧
        (∀ e ∈ db'.events, e.id ≠ eid) ∧
        (∀ e ∈ db.events, e.id ≠ eid → e ∈ db'.events) ∧
        db'.events.length + 1 = db.events.length ∧
        delete_event eid db' = (.error ⟨404, "Event not found"⟩, db')) := by
  constructor
  · intro h
    have hnone : db.events.find? (fun e => e.id == eid) = none := by
      rw [List.find?_eq_none]
      intro e he
      simpa using h e he
    unfold delete_event
    rw [hnone]
  · rintro ⟨e, he, rfl⟩
    have hsome : (db.events.find? (fun x => x.id == e.id)).isSome := by
      rw [List.find?_isSome]
      exact ⟨e, he, by simp⟩
    obtain ⟨a, ha⟩ := Option.isSome_iff_exists.mp hsome
    have hmatch : ∀ x ∈ db.events.eraseP (fun x => x.id == e.id), x.id ≠ e.id := by
      have hpw' : db.events.Pairwise
          (fun a b => (a.id == e.id) = true → (b.id == e.id) = true → False) := by
        refine hpw.imp ?_
        intro a b hab h1 h2
        exact hab (by simp at h1 h2; rw [h1, h2])
      intro x hx
      have := eraseP_no_match hpw' x hx
      simpa using this
    refine ⟨{ db with events := db.events.eraseP (fun x => x.id == e.id) },
      ?_, rfl, rfl, hmatch, ?_, ?_, ?_⟩
    · unfold delete_event
      rw [ha]
    · intro x hx hne
      exact mem_eraseP_of_not_match hx (by simpa using hne)
    · have hlen : (db.events.eraseP (fun x => x.id == e.id)).length =
          db.events.length - 1 :=
        List.length_eraseP_of_mem he (by simp)
      have hpos : 0 < db.events.length := List.length_pos_of_mem he
      show (db.events.eraseP (fun x => x.id == e.id)).length + 1 = db.events.length
      omega
    · have hnone : (db.events.eraseP (fun x => x.id == e.id)).find?
          (fun x => x.id == e.id) = none := by
        rw [List.find?_eq_none]
        intro x hx
        simpa using hmatch x hx
      unfold delete_event
      rw [hnone]

/-- C8 witness: the theorem applied to the one-event state and id 1. -/
theorem C8_delete_event_witness :
    dbOneEvent.events.Pairwise (fun a b => a.id ≠ b.id) ∧
    (((∀ e ∈ dbOneEvent.events, e.id ≠ 1) →
        delete_event 1 dbOneEvent = (.error ⟨404, "Event not found"⟩, dbOneEvent)) ∧
    ((∃ e ∈ dbOneEvent.events, e.id = 1) →
      ∃ db', delete_event 1 dbOneEvent = (.ok "Event deleted", db') ∧
        db'.users = dbOneEvent.users ∧ db'.calendar = dbOneEvent.calendar ∧
        (∀ e ∈ db'.events, e.id ≠ 1) ∧
        (∀ e ∈ dbOneEvent.events, e.id ≠ 1 → e ∈ db'.events) ∧
        db'.events.length + 1 = dbOneEvent.events.length ∧
        delete_event 1 db' = (.error ⟨404, "Event not found"⟩, db'))) :=
  ⟨by decide, C8_delete_event 1 dbOneEvent (by decide)⟩

/-- C7: create-event ignores any submitted id, stores a new event whose
other fields equal the submitted ones, and returns it with a generated id
that is neither 0 nor null; a subsequent list-events includes the created
event; list-events never fails and returns the empty sequence when no
events exist. -/
theorem C7_create_event (ev : Event) (x : Option Nat) (db : DBState) :
    ∃ e db', create_event ev db = (.ok (eventToSchema e), db') ∧
      e.name = ev.name ∧ e.date = ev.date ∧ e.time = ev.time ∧
      e.place = ev.place ∧ e.description = ev.description ∧
      e.image_url = ev.image_url ∧
      e.id ≠ 0 ∧ (eventToSchema e).id = some e.id ∧ (eventToSchema e).id ≠ none ∧
      create_event { ev with id := x } db = create_event ev db ∧
      db'.events = db.events ++ [e] ∧
      (∃ l, (get_events db').1 = .ok l ∧ eventToSchema e ∈ l) ∧
      (get_events db).1 = .ok (db.events.map eventToSchema) ∧
      (db.events = [] → (get_events db).1 = .ok []) ∧
      (get_events db).2 = db := by
  refine ⟨⟨nextId (db.events.map (fun x => x.id)), ev.name, ev.date, ev.time,
      ev.place, ev.description, ev.image_url⟩,
    { db with events := db.events ++
        [⟨nextId (db.events.map (fun x => x.id)), ev.name, ev.date, ev.time,
          ev.place, ev.description, ev.image_url⟩] },
    ?_, rfl, rfl, rfl, rfl, rfl, rfl, nextId_ne_zero _, rfl, ?_, ?_, ?_, ?_,
    rfl, ?_, rfl⟩
  · rfl
  · simp [eventToSchema]
  · rfl
  · rfl
  · exact ⟨_, rfl, by simp [get_events]⟩
  · intro h
    simp [get_events, h]

/-- C7 witness: the theorem applied to a concrete payload and the empty
state. -/
theorem C7_create_event_witness :
    ∃ e db', create_event evPayload ⟨[], [], []⟩ = (.ok (eventToSchema e), db') ∧
      e.name = evPayload.name ∧ e.date = evPayload.date ∧ e.time = evPayload.time ∧
      e.place = evPayload.place ∧ e.description = evPayload.description ∧
      e.image_url = evPayload.image_url ∧
      e.id ≠ 0 ∧ (eventToSchema e).id = some e.id ∧ (eventToSchema e).id ≠ none ∧
      create_event { evPayload with id := some 7 } ⟨[], [], []⟩ =
        create_event evPayload ⟨[], [], []⟩ ∧
      db'.events = DBState.events ⟨[], [], []⟩ ++ [e] ∧
      (∃ l, (get_events db').1 = .ok l ∧ eventToSchema e ∈ l) ∧
      (get_events ⟨[], [], []⟩).1 =
        .ok ((DBState.events ⟨[], [], []⟩).map eventToSchema) ∧
      (DBState.events ⟨[], [], []⟩ = [] → (get_events ⟨[], [], []⟩).1 = .ok []) ∧
      (get_events ⟨[], [], []⟩).2 = ⟨[], [], []⟩ :=
  C7_create_event evPayload (some 7) ⟨[], [], []⟩

/-- C5: login succeeds exactly when some stored user has both the submitted
login and the submitted password, returning that user's id and login;
otherwise it fails with 401 "Invalid login or password"; in all cases the
stored state is unchanged. -/
theorem C5_login (data : RegisterRequest) (db : DBState) :
    (login data db).2 = db ∧
    ((∃ u ∈ db.users, u.login = data.login ∧ u.password = data.password) →
      ∃ u ∈ db.users, u.login = data.login ∧ u.password = data.password ∧
        (login data db).1 = .ok ⟨u.id, u.login⟩) ∧
    ((∀ u ∈ db.users, ¬(u.login = data.login ∧ u.password = data.password)) →
      (login data db).1 = .error ⟨401, "Invalid login or password"⟩) := by
  refine ⟨?_, ?_, ?_⟩
  · unfold login
    cases db.users.find?
        (fun u => u.login == data.login && u.password == data.password) <;> rfl
  · rintro ⟨u, hu, hl, hp⟩
    have hsome : (db.users.find?
        (fun u => u.login == data.login && u.password == data.password)).isSome := by
      rw [List.find?_isSome]
      exact ⟨u, hu, by simp [hl, hp]⟩
    obtain ⟨w, hw⟩ := Option.isSome_iff_exists.mp hsome
    have hwp := List.find?_some hw
    simp only [Bool.and_eq_true, beq_iff_eq] at hwp
    refine ⟨w, List.mem_of_find?_eq_some hw, hwp.1, hwp.2, ?_⟩
    unfold login
    rw [hw]
    rfl
  · intro h
    have hnone : db.users.find?
        (fun u => u.login == data.login && u.password == data.password) = none := by
      rw [List.find?_eq_none]
      intro u hu
      simpa using h u hu
    unfold login
    rw [hnone]

/-- C5 witness: the theorem applied to a matching credential pair on the
one-user state. -/
theorem C5_login_witness :
    (login ⟨"alice", "pw"⟩ dbUserEvent).2 = dbUserEvent ∧
    ((∃ u ∈ dbUserEvent.users, u.login = "alice" ∧ u.password = "pw") →
      ∃ u ∈ dbUserEvent.users, u.login = "alice" ∧ u.password = "pw" ∧
        (login ⟨"alice", "pw"⟩ dbUserEvent).1 = .ok ⟨u.id, u.login⟩) ∧
    ((∀ u ∈ dbUserEvent.users, ¬(u.login = "alice" ∧ u.password = "pw")) →
      (login ⟨"alice", "pw"⟩ dbUserEvent).1 =
        .error ⟨401, "Invalid login or password"⟩) :=
  C5_login ⟨"alice", "pw"⟩ dbUserEvent

/-- C2: updating a nonexistent event id fails with 404 "Event not found"
and leaves the state unchanged; updating an existing one (ids being unique,
as the primary key guarantees) replaces exactly the fields name, date,
time, place, description, image_url with the submitted values, keeps the
stored id, ignores any id in the payload, returns the updated event, and
leaves every other event and the other tables unchanged. -/
theorem C2_update_event (eid : Nat) (ev : Event) (db : DBState) :
    ((∀ e ∈ db.events, e.id ≠ eid) →
        update_event eid ev db = (.error ⟨404, "Event not found"⟩, db)) ∧
    ((∃ e ∈ db.events, e.id = eid) →
      ∃ db', update_event eid ev db =
          (.ok ⟨some eid, ev.name, ev.date, ev.time, ev.place,
            ev.description, ev.image_url⟩, db') ∧
        db'.users = db.users ∧ db'.calendar = db.calendar ∧
        (⟨eid, ev.name, ev.date, ev.time, ev.place, ev.description,
          ev.image_url⟩ : EventDB) ∈ db'.events) ∧
    (∀ x, update_event eid { ev with id := x } db = update_event eid ev db) := by
  refine ⟨?_, ?_, fun x => rfl⟩
  · intro h
    have hnone : db.events.find? (fun e => e.id == eid) = none := by
      rw [List.find?_eq_none]
      intro e he
      simpa using h e he
    unfold update_event
    rw [hnone]
  · rintro ⟨e, he, rfl⟩
    have hsome : (db.events.find? (fun x => x.id == e.id)).isSome := by
      rw [List.find?_isSome]
      exact ⟨e, he, by simp⟩
    obtain ⟨a, ha⟩ := Option.isSome_iff_exists.mp hsome
    have haid : a.id = e.id := by
      have := List.find?_some ha
      simpa using this
    refine ⟨{ db with events := modifyFirst (fun x => x.id == e.id) (fun x => { x with name := ev.name, date := ev.date, time := ev.time, place := ev.place, description := ev.description, image_url := ev.image_url }) db.events }, ?_, rfl, rfl, ?_⟩
    · unfold update_event
      rw [ha]
      simp [eventToSchema, haid]
    · have hmem := modifyFirst_mem_of_find? (f := fun x => { x with name := ev.name, date := ev.date, time := ev.time, place := ev.place, description := ev.description, image_url := ev.image_url }) ha
      have heq : ({ a with name := ev.name, date := ev.date, time := ev.time, place := ev.place, description := ev.description, image_url := ev.image_url } : EventDB) = ⟨e.id, ev.name, ev.date, ev.time, ev.place, ev.description, ev.image_url⟩ := by
        cases a
        simp_all
      rw [← heq]
      exact hmem

/-- C2 witness: the theorem applied to a concrete payload on the one-event
state, at the existing id 1. -/
theorem C2_update_event_witness :
    ((∀ e ∈ dbOneEvent.events, e.id ≠ 1) →
        update_event 1 evPayload dbOneEvent =
          (.error ⟨404, "Event not found"⟩, dbOneEvent)) ∧
    ((∃ e ∈ dbOneEvent.events, e.id = 1) →
      ∃ db', update_event 1 evPayload dbOneEvent =
          (.ok ⟨some 1, evPayload.name, evPayload.date, evPayload.time,
            evPayload.place, evPayload.description, evPayload.image_url⟩, db') ∧
        db'.users = dbOneEvent.users ∧ db'.calendar = dbOneEvent.calendar ∧
        (⟨1, evPayload.name, evPayload.date, evPayload.time, evPayload.place,
          evPayload.description, evPayload.image_url⟩ : EventDB) ∈ db'.events) ∧
    (∀ x, update_event 1 { evPayload with id := x } dbOneEvent =
      update_event 1 evPayload dbOneEvent) :=
  C2_update_event 1 evPayload dbOneEvent

/-- C3: add-to-calendar fails with 404 "User or Event not found" and leaves
the state (in particular the calendar table) unchanged when either id
refers to no existing record; when both exist it returns "Added to
calendar" and appends exactly one new calendar row with that user_id and
event_id. -/
theorem C3_add_to_calendar (data : CalendarItem) (db : DBState) :
    (((∀ u ∈ db.users, u.id ≠ data.user_id) ∨
        (∀ e ∈ db.events, e.id ≠ data.event_id)) →
      add_to_calendar data db = (.error ⟨404, "User or Event not found"⟩, db)) ∧
    ((∃ u ∈ db.users, u.id = data.user_id) →
     (∃ e ∈ db.events, e.id = data.event_id) →
      ∃ c : CalendarDB, c.user_id = data.user_id ∧ c.event_id = data.event_id ∧
        add_to_calendar data db =
          (.ok "Added to calendar", { db with calendar := db.calendar ++ [c] })) := by
  constructor
  · intro h
    unfold add_to_calendar
    rcases h with h | h
    · have hnone : db.users.find? (fun u => u.id == data.user_id) = none := by
        rw [List.find?_eq_none]
        intro u hu
        simpa using h u hu
      rw [hnone]
      simp
    · have hnone : db.events.find? (fun e => e.id == data.event_id) = none := by
        rw [List.find?_eq_none]
        intro e he
        simpa using h e he
      rw [hnone]
      simp
  · intro hu he
    exact ⟨⟨nextId (db.calendar.map (fun x => x.id)), data.user_id, data.event_id⟩,
      rfl, rfl, add_to_calendar_success db hu he⟩

/-- C3 witness: the theorem applied to `{user_id := 1, event_id := 1}` on
the state with one user and one event. -/
theorem C3_add_to_calendar_witness :
    (((∀ u ∈ dbUserEvent.users, u.id ≠ 1) ∨
        (∀ e ∈ dbUserEvent.events, e.id ≠ 1)) →
      add_to_calendar ⟨1, 1⟩ dbUserEvent =
        (.error ⟨404, "User or Event not found"⟩, dbUserEvent)) ∧
    ((∃ u ∈ dbUserEvent.users, u.id = 1) →
     (∃ e ∈ dbUserEvent.events, e.id = 1) →
      ∃ c : CalendarDB, c.user_id = 1 ∧ c.event_id = 1 ∧
        add_to_calendar ⟨1, 1⟩ dbUserEvent =
          (.ok "Added to calendar",
            { dbUserEvent with calendar := dbUserEvent.calendar ++ [c] })) :=
  C3_add_to_calendar ⟨1, 1⟩ dbUserEvent

/-- C9: duplicate calendar entries are not prevented: when both the user
and the event exist, two add-to-calendar calls with the same pair both
succeed and the final calendar holds two distinct rows with that user_id
and event_id. -/
theorem C9_duplicate_calendar (uid eid : Nat) (db : DBState)
    (hu : ∃ u ∈ db.users, u.id = uid) (he : ∃ e ∈ db.events, e.id = eid) :
    ∃ c1 c2 db1 db2,
      add_to_calendar ⟨uid, eid⟩ db = (.ok "Added to calendar", db1) ∧
      add_to_calendar ⟨uid, eid⟩ db1 = (.ok "Added to calendar", db2) ∧
      db2.calendar = db.calendar ++ [c1, c2] ∧
      c1 ≠ c2 ∧ c1 ∈ db2.calendar ∧ c2 ∈ db2.calendar ∧
      c1.user_id = uid ∧ c1.event_id = eid ∧ c2.user_id = uid ∧ c2.event_id = eid := by
  have h1 := add_to_calendar_success db hu he
  have h2 := add_to_calendar_success
    { db with calendar := db.calendar ++
        [(⟨nextId (db.calendar.map (fun x => x.id)), uid, eid⟩ : CalendarDB)] } hu he
  refine ⟨(⟨nextId (db.calendar.map (fun x => x.id)), uid, eid⟩ : CalendarDB),
    (⟨nextId ((db.calendar ++ [(⟨nextId (db.calendar.map (fun x => x.id)), uid, eid⟩ : CalendarDB)]).map (fun x => x.id)), uid, eid⟩ : CalendarDB),
    _, _, h1, h2, ?_, ?_, ?_, ?_, rfl, rfl, rfl, rfl⟩
  · simp
  · intro hcc
    have hid := congrArg CalendarDB.id hcc
    simp only [] at hid
    have hlt : nextId (db.calendar.map (fun x => x.id)) <
        nextId ((db.calendar ++
          [(⟨nextId (db.calendar.map (fun x => x.id)), uid, eid⟩ : CalendarDB)]).map (fun x => x.id)) := by
      apply lt_nextId_of_mem
      simp
    omega
  · simp
  · simp

/-- C9 witness: the theorem applied at user 1 and event 1 on the state
with one user and one event. -/
theorem C9_duplicate_calendar_witness :
    (∃ u ∈ dbUserEvent.users, u.id = 1) ∧
    (∃ e ∈ dbUserEvent.events, e.id = 1) ∧
    (∃ c1 c2 db1 db2,
      add_to_calendar ⟨1, 1⟩ dbUserEvent = (.ok "Added to calendar", db1) ∧
      add_to_calendar ⟨1, 1⟩ db1 = (.ok "Added to calendar", db2) ∧
      db2.calendar = dbUserEvent.calendar ++ [c1, c2] ∧
      c1 ≠ c2 ∧ c1 ∈ db2.calendar ∧ c2 ∈ db2.calendar ∧
      c1.user_id = 1 ∧ c1.event_id = 1 ∧ c2.user_id = 1 ∧ c2.event_id = 1) :=
  ⟨by decide, by decide,
    C9_duplicate_calendar 1 1 dbUserEvent (by decide) (by decide)⟩

/-- C4: registering a login not yet stored succeeds, returning the new
user's id and login and appending exactly one user row; registering it
again, with any password, fails with 400 "User already exists" and adds no
user; and login uniqueness is an invariant preserved by every operation. -/
theorem C4_register (data : RegisterRequest) (pw : String) (db : DBState) :
    ((∀ u ∈ db.users, u.login ≠ data.login) →
      ∃ uid db', register data db = (.ok ⟨uid, data.login⟩, db') ∧
        db'.users = db.users ++ [⟨uid, data.login, data.password⟩] ∧
        db'.events = db.events ∧ db'.calendar = db.calendar ∧
        register ⟨data.login, pw⟩ db' =
          (.error ⟨400, "User already exists"⟩, db')) ∧
    ((∃ u ∈ db.users, u.login = data.login) →
      register data db = (.error ⟨400, "User already exists"⟩, db)) ∧
    (uniqueLogins db →
      uniqueLogins (register data db).2 ∧
      (∀ d, uniqueLogins (login d db).2) ∧
      (∀ ev, uniqueLogins (create_event ev db).2) ∧
      (∀ eid ev, uniqueLogins (update_event eid ev db).2) ∧
      (∀ eid, uniqueLogins (delete_event eid db).2) ∧
      (∀ ci, uniqueLogins (add_to_calendar ci db).2) ∧
      uniqueLogins (get_events db).2 ∧
      (∀ uid2, uniqueLogins (get_calendar uid2 db).2)) := by
  refine ⟨?_, ?_, ?_⟩
  · intro h
    have hnone : db.users.find? (fun u => u.login == data.login) = none := by
      rw [List.find?_eq_none]
      intro u hu
      simpa using h u hu
    refine ⟨nextId (db.users.map (fun x => x.id)),
      { db with users := db.users ++ [⟨nextId (db.users.map (fun x => x.id)), data.login, data.password⟩] },
      ?_, rfl, rfl, rfl, ?_⟩
    · unfold register
      rw [hnone]
      rfl
    · have hsome : (db.users ++
          [(⟨nextId (db.users.map (fun x => x.id)), data.login, data.password⟩ : UserDB)]).find?
            (fun u => u.login == data.login) =
          some (⟨nextId (db.users.map (fun x => x.id)), data.login, data.password⟩ : UserDB) := by
        rw [List.find?_append, hnone]
        simp [List.find?]
      unfold register
      rw [hsome]
  · rintro ⟨u, hu, hl⟩
    have hsome : (db.users.find? (fun x => x.login == data.login)).isSome := by
      rw [List.find?_isSome]
      exact ⟨u, hu, by simp [hl]⟩
    obtain ⟨w, hw⟩ := Option.isSome_iff_exists.mp hsome
    unfold register
    rw [hw]
  · intro hU
    refine ⟨?_, fun d => uniqueLogins_of_users_eq (congrArg DBState.users (login_state_eq d db)) hU,
      fun ev => hU,
      fun eid ev => uniqueLogins_of_users_eq (update_event_users eid ev db) hU,
      fun eid => uniqueLogins_of_users_eq (delete_event_users eid db) hU,
      fun ci => uniqueLogins_of_users_eq (add_to_calendar_users ci db) hU,
      hU, fun uid2 => hU⟩
    unfold register
    cases hf : db.users.find? (fun u => u.login == data.login) with
    | some w => exact hU
    | none =>
      have hall := List.find?_eq_none.mp hf
      show List.Pairwise _ (db.users ++
        [⟨nextId (db.users.map (fun x => x.id)), data.login, data.password⟩])
      rw [List.pairwise_append]
      refine ⟨hU, by simp, ?_⟩
      intro a ha b hb
      have hb' : b = ⟨nextId (db.users.map (fun x => x.id)), data.login, data.password⟩ :=
        List.mem_singleton.mp hb
      subst hb'
      have hne := hall a ha
      simp only [beq_iff_eq] at hne
      simpa using hne

/-- C4 witness: the theorem applied to the fresh login "bob" on the state
with one user "alice". -/
theorem C4_register_witness :
    ((∀ u ∈ dbUserEvent.users, u.login ≠ "bob") →
      ∃ uid db', register ⟨"bob", "x"⟩ dbUserEvent = (.ok ⟨uid, "bob"⟩, db') ∧
        db'.users = dbUserEvent.users ++ [⟨uid, "bob", "x"⟩] ∧
        db'.events = dbUserEvent.events ∧ db'.calendar = dbUserEvent.calendar ∧
        register ⟨"bob", "y"⟩ db' =
          (.error ⟨400, "User already exists"⟩, db')) ∧
    ((∃ u ∈ dbUserEvent.users, u.login = "bob") →
      register ⟨"bob", "x"⟩ dbUserEvent =
        (.error ⟨400, "User already exists"⟩, dbUserEvent)) ∧
    (uniqueLogins dbUserEvent →
      uniqueLogins (register ⟨"bob", "x"⟩ dbUserEvent).2 ∧
      (∀ d, uniqueLogins (login d dbUserEvent).2) ∧
      (∀ ev, uniqueLogins (create_event ev dbUserEvent).2) ∧
      (∀ eid ev, uniqueLogins (update_event eid ev dbUserEvent).2) ∧
      (∀ eid, uniqueLogins (delete_event eid dbUserEvent).2) ∧
      (∀ ci, uniqueLogins (add_to_calendar ci dbUserEvent).2) ∧
      uniqueLogins (get_events dbUserEvent).2 ∧
      (∀ uid2, uniqueLogins (get_calendar uid2 dbUserEvent).2)) :=
  C4_register ⟨"bob", "x"⟩ "y" dbUserEvent

/-- C1 counterexample: in a state whose single calendar entry for user 1
references event 5, which does not exist (an orphaned row, reachable by
adding the entry and then deleting the event), get-calendar returns a
one-element sequence whose element is null, not an Event record — so the
claim that every element of the returned sequence is an Event record fails
at this input. -/
theorem C1_counterexample :
    get_calendar 1 dbOrphan = (.ok [(none : Option Event)], dbOrphan) ∧
    ¬ ∀ x ∈ [(none : Option Event)], x.isSome := by
  constructor
  · rfl
  · decide

/-- C1 (amended): for every user_id and every state in which each calendar
entry with that user_id references an existing event, get-calendar returns
one Event per such calendar entry — the referenced event's record — and
therefore the empty sequence when the user has no calendar entries or the
user_id is unknown; the state is unchanged. -/
theorem C1_get_calendar (uid : Nat) (db : DBState)
    (h : ∀ c ∈ db.calendar, c.user_id = uid →
      ∃ e ∈ db.events, e.id = c.event_id) :
    ∃ res, get_calendar uid db = (.ok res, db) ∧
      List.Forall₂ (fun (c : CalendarDB) (x : Option Event) =>
          ∃ edb ∈ db.events, edb.id = c.event_id ∧ x = some (eventToSchema edb))
        (db.calendar.filter (fun c => c.user_id == uid)) res ∧
      ((∀ c ∈ db.calendar, c.user_id ≠ uid) → res = []) := by
  refine ⟨(db.calendar.filter (fun c => c.user_id == uid)).map
      (fun item => (db.events.find? (fun e => e.id == item.event_id)).map eventToSchema),
    ?_, ?_, ?_⟩
  · rfl
  · rw [List.forall₂_map_right_iff, List.forall₂_same]
    intro c hc
    have hcm : c ∈ db.calendar := (List.mem_filter.mp hc).1
    have hcu : c.user_id = uid := by simpa using (List.mem_filter.mp hc).2
    obtain ⟨e, he, hei⟩ := h c hcm hcu
    have hsome : (db.events.find? (fun x => x.id == c.event_id)).isSome := by
      rw [List.find?_isSome]
      exact ⟨e, he, by simp [hei]⟩
    obtain ⟨w, hw⟩ := Option.isSome_iff_exists.mp hsome
    have hwid : w.id = c.event_id := by simpa using List.find?_some hw
    refine ⟨w, List.mem_of_find?_eq_some hw, hwid, ?_⟩
    rw [hw]
    rfl
  · intro hnone
    have hfil : db.calendar.filter (fun c => c.user_id == uid) = [] := by
      rw [List.filter_eq_nil_iff]
      intro c hc
      simpa using hnone c hc
    rw [hfil]
    rfl

/-- C1 witness: the amended theorem applied to the state with one user, one
event and one calendar entry linking them. -/
theorem C1_get_calendar_witness :
    (∀ c ∈ dbUserEventCal.calendar, c.user_id = 1 →
      ∃ e ∈ dbUserEventCal.events, e.id = c.event_id) ∧
    (∃ res, get_calendar 1 dbUserEventCal = (.ok res, dbUserEventCal) ∧
      List.Forall₂ (fun (c : CalendarDB) (x : Option Event) =>
          ∃ edb ∈ dbUserEventCal.events, edb.id = c.event_id ∧
            x = some (eventToSchema edb))
        (dbUserEventCal.calendar.filter (fun c => c.user_id == 1)) res ∧
      ((∀ c ∈ dbUserEventCal.calendar, c.user_id ≠ 1) → res = [])) :=
  ⟨by decide, C1_get_calendar 1 dbUserEventCal (by decide)⟩

end Sxodim
